import Mathlib

/-!
Shallow embedding of the message-processing core of the DalCo backend
(src/dalco-backend-firebase/src/services/jamai.service.js and
src/dalco-backend-firebase/src/services/messageProcessor.service.js).

External collaborators (the document store, the AI generation service, the
spreadsheet API, JSON.parse of the host runtime) are modelled as oracles:
each external call is represented by its outcome (an Except value, or an
Option-valued parse function).  The pure string-processing logic of the
services is translated directly from the source.
-/

namespace Dalco

/-- Boolean substring test: listBegins hay pat is true when pat is an initial
segment of hay (models the start of a JavaScript substring search). -/
def listBegins : List Char → List Char → Bool
  | _, [] => true
  | [], _ :: _ => false
  | a :: hs, b :: ps => a == b && listBegins hs ps

/-- Boolean substring containment over char lists: models the JavaScript
String.prototype.includes substring test. -/
def listHas : List Char → List Char → Bool
  | [], pat => pat.isEmpty
  | a :: t, pat => listBegins (a :: t) pat || listHas t pat

/-- strIncludes hay pat models hay.includes(pat) of JavaScript strings. -/
def strIncludes (hay pat : String) : Bool :=
  listHas hay.toList pat.toList

/-- ASCII lower-casing, modelling text.toLowerCase() on the ASCII texts the
services handle (kept list-based so that it evaluates by kernel
reduction). -/
def lowerStr (s : String) : String :=
  String.mk (s.toList.map Char.toLower)

/-- The whitespace characters trimmed from a reply: space, tab, line feed,
carriage return. -/
def isWsChar (c : Char) : Bool :=
  c == ' ' || c == Char.ofNat 9 || c == Char.ofNat 10 || c == Char.ofNat 13

/-- Drop leading whitespace from a character list. -/
def dropLeadWs : List Char → List Char
  | [] => []
  | c :: t => if isWsChar c then dropLeadWs t else c :: t

/-- trimStr models reply.trim(): strip leading and trailing whitespace. -/
def trimStr (s : String) : String :=
  String.mk ((dropLeadWs (dropLeadWs s.toList).reverse).reverse)

/-- Result shape of detectLanguage: a language tag and a confidence value
(the source uses the number literals 0.8 and 0.6; confidences are modelled
as exact rationals). -/
structure LangDetection where
  language : String
  confidence : ℚ
deriving Repr, DecidableEq

/-- The fixed Bahasa-Malaysia marker word list of jamai.service.js
(detectLanguage, line 131). -/
def bmKeywords : List String :=
  ["saya", "nak", "untuk", "dengan", "boleh", "ada", "tak", "tidak"]

/-- detectLanguage of jamai.service.js (lines 129-140): lower-case the text,
count how many of the fixed marker words occur as substrings, and classify
as bm with confidence 0.8 when the count is at least 2, otherwise en with
confidence 0.6.  Pure: no external call, no failure mode. -/
def detectLanguage (text : String) : LangDetection :=
  let lowerText := lowerStr text
  let bmCount := (bmKeywords.filter (fun word => strIncludes lowerText word)).length
  { language := if bmCount >= 2 then "bm" else "en"
    confidence := if bmCount >= 2 then 0.8 else 0.6 }

/-- The marker-word occurrence count of detectLanguage, named so that
theorems can refer to it. -/
def bmCountOf (text : String) : Nat :=
  (bmKeywords.filter (fun word => strIncludes (lowerStr text) word)).length

/-- Result shape of classifyIntent. -/
structure IntentResult where
  intent : String
  confidence : ℚ
  rawResponse : String
deriving Repr, DecidableEq

/-- The fixed label set of classifyIntent (jamai.service.js line 112). -/
def validIntents : List String :=
  ["booking", "inquiry", "complaint", "feedback", "general"]

/-- classifyIntent of jamai.service.js (lines 105-124), as a function of the
reply text returned by the external generation service (the upstream call
itself is an oracle; an upstream failure propagates before this logic runs):
lower-case and trim the reply, coerce to general when the result is not in
the fixed label set, and attach the fixed confidence 0.85. -/
def classifyIntent (reply : String) : IntentResult :=
  let intent := trimStr (lowerStr reply)
  { intent := if validIntents.contains intent then intent else "general"
    confidence := 0.85
    rawResponse := reply }

/-- The structured entity object the extractor asks the model for: name,
phone, email, date, time, service_type, intent fields, each possibly absent
(JavaScript undefined or null is none; an empty string is some "" and is
falsy). -/
structure EntObj where
  name : Option String := none
  phone : Option String := none
  email : Option String := none
  date : Option String := none
  time : Option String := none
  service_type : Option String := none
  intent : Option String := none
deriving Repr, DecidableEq

/-- The entity record produced by extractEntities: either a parsed object
(the initial empty object when no brace-delimited substring was found, or
the JSON.parse result), or the raw-text fallback object with the single key
raw holding the full reply. -/
inductive Entities where
  | obj (e : EntObj)
  | raw (s : String)
deriving Repr, DecidableEq

/-- JavaScript truthiness for an optional string field: absent and the empty
string are falsy, every other string is truthy. -/
def truthy : Option String → Bool
  | none => false
  | some s => !(s == "")

/-- The opening brace character (code point 123). -/
def braceOpen : Char := Char.ofNat 123

/-- The closing brace character (code point 125). -/
def braceClose : Char := Char.ofNat 125

/-- Index of the first occurrence of a character in a list, if any. -/
def firstIdx (c : Char) : List Char → Option Nat
  | [] => none
  | a :: t => if a == c then some 0 else (firstIdx c t).map (· + 1)

/-- Index of the last occurrence of a character in a list, if any. -/
def lastIdx (c : Char) (l : List Char) : Option Nat :=
  (firstIdx c l.reverse).map (fun i => l.length - 1 - i)

/-- The regex match response.response.match of jamai.service.js line 82: the
pattern is an opening brace, then anything (dot-all, greedy), then a closing
brace, so the match, when one exists, runs from the first opening brace to
the last closing brace after it. -/
def jsMatch (s : String) : Option String :=
  let l := s.toList
  match firstIdx braceOpen l, lastIdx braceClose l with
  | some i, some j =>
      if i < j then some (String.mk ((l.drop i).take (j + 1 - i))) else none
  | _, _ => none

/-- extractEntities of jamai.service.js (lines 73-100), as a function of the
reply text of the external generation service; JSON.parse of the host
runtime is the oracle parse (none models a thrown parse error).  entities
starts as the empty object; when a brace-delimited substring is found it is
parsed, and a parse failure falls back to the raw-record; when no
brace-delimited substring is found the empty object is kept. -/
def extractEntities (parse : String → Option EntObj) (reply : String) : Entities :=
  match jsMatch reply with
  | none => Entities.obj {}
  | some sub =>
      match parse sub with
      | some e => Entities.obj e
      | none => Entities.raw reply

/-- Field access entities.name of a JavaScript entity record: undefined on
the raw-fallback record. -/
def Entities.name : Entities → Option String
  | Entities.obj e => e.name
  | Entities.raw _ => none

/-- Field access entities.phone. -/
def Entities.phone : Entities → Option String
  | Entities.obj e => e.phone
  | Entities.raw _ => none

/-- Field access entities.email. -/
def Entities.email : Entities → Option String
  | Entities.obj e => e.email
  | Entities.raw _ => none

/-- Field access entities.date. -/
def Entities.date : Entities → Option String
  | Entities.obj e => e.date
  | Entities.raw _ => none

/-- Field access entities.time. -/
def Entities.time : Entities → Option String
  | Entities.obj e => e.time
  | Entities.raw _ => none

/-- Field access entities.service_type. -/
def Entities.service_type : Entities → Option String
  | Entities.obj e => e.service_type
  | Entities.raw _ => none

/-- Field access entities.intent. -/
def Entities.intent : Entities → Option String
  | Entities.obj e => e.intent
  | Entities.raw _ => none

/-- JavaScript a || b for an optional string a and a string default b: the
string itself when truthy, otherwise the default. -/
def jsOr (a : Option String) (b : String) : String :=
  match a with
  | some s => if s == "" then b else s
  | none => b

/-- JavaScript a || null for an optional string a: the string itself when
truthy, otherwise null (none). -/
def jsOrNull (a : Option String) : Option String :=
  match a with
  | some s => if s == "" then none else some s
  | none => none

/-- calculateLeadScore of messageProcessor.service.js (lines 161-172): base
score 50, plus 10 for a truthy name, 15 for phone, 15 for email, 10 for
date, 10 for time, 10 for service_type, capped at 100 by Math.min. -/
def calculateLeadScore (entities : Entities) : Nat :=
  let score := 50
  let score := if truthy entities.name then score + 10 else score
  let score := if truthy entities.phone then score + 15 else score
  let score := if truthy entities.email then score + 15 else score
  let score := if truthy entities.date then score + 10 else score
  let score := if truthy entities.time then score + 10 else score
  let score := if truthy entities.service_type then score + 10 else score
  min score 100

/-- The lead document built by createLeadFromMessage (messageProcessor
.service.js lines 130-156) before it is handed to the document store. -/
structure LeadData where
  organizationId : String
  sourceMessageId : String
  customerName : String
  phone : String
  email : Option String
  serviceType : Option String
  preferredDate : Option String
  preferredTime : Option String
  status : String
  score : Nat
  notes : String
deriving Repr, DecidableEq

/-- The document construction inside createLeadFromMessage: field defaults
via JavaScript || (customerName falls back to Unknown, phone to the sender
address, the optional fields to null), status new, score from
calculateLeadScore, and an auto-generated note naming the entity intent. -/
def mkLeadData (organizationId messageId : String) (entities : Entities)
    (phone : String) : LeadData :=
  { organizationId := organizationId
    sourceMessageId := messageId
    customerName := jsOr entities.name "Unknown"
    phone := jsOr entities.phone phone
    email := jsOrNull entities.email
    serviceType := jsOrNull entities.service_type
    preferredDate := jsOrNull entities.date
    preferredTime := jsOrNull entities.time
    status := "new"
    score := calculateLeadScore entities
    notes := "Auto-created from message. Intent: " ++ jsOr entities.intent "unknown" }

/-- The inbound payload of processMessage: organizationId, channelType, the
sender address (the JavaScript field from, a reserved word in Lean), the
content, and the optional external messageId and channelId. -/
structure MessageData where
  organizationId : String
  channelType : String
  from_ : String
  content : String
  messageId : Option String := none
  channelId : Option String := none
deriving Repr, DecidableEq

/-- Outcomes of the external calls a single processMessage run can make.
Each Except value is the outcome of one awaited collaborator call: error e
models a thrown exception with message e.  parse is the JSON.parse oracle
used inside extractEntities.  classifyReply and extractReply are the reply
texts of the generation service backing classifyIntent and extractEntities
(the pure normalisation on top of them is classifyIntent and
extractEntities above). -/
structure Oracles where
  classifyReply : Except String String
  extractReply : Except String String
  parse : String → Option EntObj
  addMessageId : Except String String
  actionChainFinal : Except String String
  genResponseReply : Except String String
  addLeadId : Except String String
  sheetsWrite : Except String Unit
  updateMessage : Except String Unit

/-- A document-store write operation attempted by the pipeline.  addLead
carries none when the underlying add threw (createLeadFromMessage swallows
that error and yields a null lead id).  The update payload records the
processingStatus written and the attached error message, if any.  No code
path of the pipeline constructs deleteMessage. -/
inductive DbOp where
  | addMessage (id : String) (language : String) (intent : String)
      (entities : Entities) (status : String)
  | addLead (id : Option String) (lead : LeadData)
  | updateMessage (id : String) (status : String) (err : Option String)
  | deleteMessage (id : String)
deriving Repr, DecidableEq

/-- The success payload returned by processMessage (lines 98-106). -/
structure ProcessResult where
  success : Bool
  messageId : String
  language : String
  intent : String
  entities : Entities
  response : String
  leadId : Option String
deriving Repr, DecidableEq

/-- The catch branch of processMessage (lines 107-123): when the inbound
payload carries an external messageId, an update of the messages document
with that id to processingStatus failed (error message attached) is
attempted (its own failure is swallowed by an inner catch); otherwise no
write is attempted.  The exception is re-raised either way. -/
def failOps (md : MessageData) (e : String) : List DbOp :=
  match md.messageId with
  | some m => [DbOp.updateMessage m "failed" (some e)]
  | none => []

/-- createLeadFromMessage (lines 130-156) as seen from the pipeline: the
lead document is built and an add is attempted; on success the new lead id
is returned, on failure the error is swallowed and null is returned.  The
first component is the returned lead id, the second the attempted write. -/
def createLeadFromMessage (o : Oracles) (organizationId messageId : String)
    (entities : Entities) (phone : String) : Option String × List DbOp :=
  let lead := mkLeadData organizationId messageId entities phone
  match o.addLeadId with
  | Except.ok lid => (some lid, [DbOp.addLead (some lid) lead])
  | Except.error _ => (none, [DbOp.addLead none lead])

/-- processMessage of messageProcessor.service.js (lines 10-125), with the
external calls replaced by their oracle outcomes.  Returns the JavaScript
return value (or the re-raised exception) together with the ordered list of
document-store writes the run attempted.  Steps, in source order: detect
language (pure), classify intent, extract entities, add the message
document with processingStatus processing, generate the response (the
action chain for booking and inquiry intents, the single-shot chat
response otherwise), conditionally create a lead (failure swallowed),
best-effort spreadsheet export (failure caught and logged only), and the
finalising update to processingStatus completed. -/
def processMessage (md : MessageData) (o : Oracles) :
    Except String ProcessResult × List DbOp :=
  let langDetection := detectLanguage md.content
  match o.classifyReply with
  | Except.error e => (Except.error e, failOps md e)
  | Except.ok creply =>
    let intentResult := classifyIntent creply
    match o.extractReply with
    | Except.error e => (Except.error e, failOps md e)
    | Except.ok ereply =>
      let entities := extractEntities o.parse ereply
      match o.addMessageId with
      | Except.error e => (Except.error e, failOps md e)
      | Except.ok mid =>
        let addOp := DbOp.addMessage mid langDetection.language intentResult.intent
          entities "processing"
        let aiResp : Except String String :=
          if intentResult.intent == "booking" || intentResult.intent == "inquiry" then
            o.actionChainFinal
          else
            o.genResponseReply
        match aiResp with
        | Except.error e => (Except.error e, addOp :: failOps md e)
        | Except.ok aiResponse =>
          let leadStep : Option String × List DbOp :=
            if intentResult.intent == "booking" || intentResult.intent == "inquiry" then
              createLeadFromMessage o md.organizationId mid entities md.from_
            else
              (none, [])
          match o.sheetsWrite with
          | Except.ok _ | Except.error _ =>
            match o.updateMessage with
            | Except.error e =>
                (Except.error e, addOp :: leadStep.2 ++ failOps md e)
            | Except.ok _ =>
                (Except.ok
                  { success := true
                    messageId := mid
                    language := langDetection.language
                    intent := intentResult.intent
                    entities := entities
                    response := aiResponse
                    leadId := leadStep.1 },
                 addOp :: leadStep.2 ++ [DbOp.updateMessage mid "completed" none])

/-- A per-item entry of the batch result list (lines 183-189): the spread
success payload on success, or the failure entry holding the error message
and the item's external messageId. -/
inductive BatchItem where
  | ok (r : ProcessResult)
  | fail (error : String) (messageId : Option String)
deriving Repr

/-- The success flag of a batch result entry. -/
def BatchItem.success : BatchItem → Bool
  | BatchItem.ok _ => true
  | BatchItem.fail _ _ => false

/-- One iteration of the batch loop: run processMessage on the item and
record the per-item outcome (a failure is caught and recorded, never
re-raised by the loop). -/
def runBatchItem (it : MessageData × Oracles) : BatchItem :=
  match (processMessage it.1 it.2).1 with
  | Except.ok r => BatchItem.ok r
  | Except.error e => BatchItem.fail e it.1.messageId

/-- The summary object returned by batchProcessMessages (lines 193-199). -/
structure BatchSummary where
  success : Bool
  total : Nat
  processed : Nat
  failed : Nat
  results : List BatchItem
deriving Repr

/-- batchProcessMessages of messageProcessor.service.js (lines 177-200):
iterate over the input sequence strictly in order, one item at a time, each
item paired with the oracle outcomes of its own external calls; collect one
result per item; report total as the input length, processed as the number
of successful entries and failed as the number of failed entries. -/
def batchProcessMessages (items : List (MessageData × Oracles)) : BatchSummary :=
  let results := items.map runBatchItem
  { success := true
    total := items.length
    processed := (results.filter (fun r => r.success)).length
    failed := (results.filter (fun r => !r.success)).length
    results := results }

/-- A stored message document as read back by the stats query: the fields
getProcessingStats inspects (organizationId and createdAt for the query,
processingStatus, intent, language, channelType for the grouping).
createdAt is an epoch timestamp. -/
structure MsgDoc where
  organizationId : String
  createdAt : Nat
  processingStatus : String
  intent : Option String := none
  language : Option String := none
  channelType : String
deriving Repr, DecidableEq

/-- The JavaScript object-key increment stats.byX[k] = (stats.byX[k] || 0) + 1
over a key-insertion-ordered association list. -/
def bump (m : List (String × Nat)) (k : String) : List (String × Nat) :=
  match m with
  | [] => [(k, 1)]
  | (k0, n) :: t => if k0 == k then (k0, n + 1) :: t else (k0, n) :: bump t k

/-- Reading a count out of a grouped-count mapping: 0 for an absent key. -/
def lookup0 (m : List (String × Nat)) (k : String) : Nat :=
  match m with
  | [] => 0
  | (k0, n) :: t => if k0 == k then n else lookup0 t k

/-- The stats object of getProcessingStats (lines 231-238).  The
averageProcessingTime field is declared in the source but never computed:
it keeps its static initial value 0. -/
structure Stats where
  total : Nat
  byStatus : List (String × Nat)
  byIntent : List (String × Nat)
  byLanguage : List (String × Nat)
  byChannel : List (String × Nat)
  averageProcessingTime : Nat
deriving Repr, DecidableEq

/-- The start timestamp selected by the period switch of getProcessingStats
(lines 210-222), kept symbolic: midnight of the current day, now minus a
number of days, or now minus a number of calendar months. -/
inductive StartDate where
  | midnightToday
  | nowMinusDays (n : Nat)
  | nowMinusMonths (n : Nat)
deriving Repr, DecidableEq

/-- The period switch itself: today sets the start to midnight today, week
to now minus 7 days, month to now minus 1 calendar month, and any other
period value falls through to the default branch, now minus 7 days. -/
def periodStartDate : String → StartDate
  | "today" => StartDate.midnightToday
  | "week" => StartDate.nowMinusDays 7
  | "month" => StartDate.nowMinusMonths 1
  | _ => StartDate.nowMinusDays 7

/-- The document-store query of getProcessingStats (lines 224-227): the
messages of the organization whose createdAt is at least the start
timestamp, in store order. -/
def inRange (organizationId : String) (startDate : Nat) (docs : List MsgDoc) :
    List MsgDoc :=
  docs.filter (fun m => m.organizationId == organizationId
    && decide (startDate ≤ m.createdAt))

/-- One iteration of the messages.forEach reducer (lines 240-256): count by
status and by channel unconditionally, by intent and by language only when
the field is truthy. -/
def tallyStep (st : Stats) (m : MsgDoc) : Stats :=
  { st with
    byStatus := bump st.byStatus m.processingStatus
    byIntent := if truthy m.intent then bump st.byIntent (m.intent.getD "") else st.byIntent
    byLanguage := if truthy m.language then bump st.byLanguage (m.language.getD "") else st.byLanguage
    byChannel := bump st.byChannel m.channelType }

/-- getProcessingStats of messageProcessor.service.js (lines 205-267) after
the period switch: query the in-range messages, start from the empty stats
object with total equal to the message count, and fold the forEach reducer
over the messages. -/
def getProcessingStats (organizationId : String) (startDate : Nat)
    (docs : List MsgDoc) : Stats :=
  let messages := inRange organizationId startDate docs
  messages.foldl tallyStep
    { total := messages.length
      byStatus := []
      byIntent := []
      byLanguage := []
      byChannel := []
      averageProcessingTime := 0 }

/-- DbOp predicate: an update of the messages document with the given id. -/
def isUpdateOf (id : String) : DbOp → Bool
  | DbOp.updateMessage i _ _ => i == id
  | _ => false

/-- DbOp predicate: an add of the messages document with the given id. -/
def isAddOf (id : String) : DbOp → Bool
  | DbOp.addMessage i _ _ _ _ => i == id
  | _ => false

/-- DbOp predicate: a delete of a messages document (no pipeline code path
produces one). -/
def isDeleteOp : DbOp → Bool
  | DbOp.deleteMessage _ => true
  | _ => false

/-- Sample payload without an external messageId. -/
def mdNoId : MessageData :=
  { organizationId := "org1", channelType := "whatsapp"
    from_ := "+60123", content := "hi" }

/-- Sample payload carrying the external messageId ext1. -/
def mdWithId : MessageData :=
  { organizationId := "org1", channelType := "whatsapp"
    from_ := "+60123", content := "hello", messageId := some "ext1" }

/-- Oracle outcomes where the generation call behind intent classification
throws and every other collaborator call would succeed. -/
def oracleFailClassify : Oracles :=
  { classifyReply := Except.error "AI down"
    extractReply := Except.ok "reply"
    parse := fun _ => none
    addMessageId := Except.ok "m1"
    actionChainFinal := Except.ok "final"
    genResponseReply := Except.ok "resp"
    addLeadId := Except.ok "lead1"
    sheetsWrite := Except.ok ()
    updateMessage := Except.ok () }

/-- Oracle outcomes where the generation call behind entity extraction
throws and every other collaborator call would succeed. -/
def oracleFailExtract : Oracles :=
  { classifyReply := Except.ok "booking"
    extractReply := Except.error "boom"
    parse := fun _ => none
    addMessageId := Except.ok "m1"
    actionChainFinal := Except.ok "final"
    genResponseReply := Except.ok "resp"
    addLeadId := Except.ok "lead1"
    sheetsWrite := Except.ok ()
    updateMessage := Except.ok () }

/-- Oracle outcomes where every collaborator call succeeds. -/
def oracleAllOk : Oracles :=
  { classifyReply := Except.ok "booking"
    extractReply := Except.ok "no json here"
    parse := fun _ => none
    addMessageId := Except.ok "m1"
    actionChainFinal := Except.ok "final"
    genResponseReply := Except.ok "resp"
    addLeadId := Except.ok "lead1"
    sheetsWrite := Except.ok ()
    updateMessage := Except.ok () }

/-- Oracle outcomes where only the spreadsheet export throws. -/
def oracleFailSheets : Oracles :=
  { classifyReply := Except.ok "booking"
    extractReply := Except.ok "no json here"
    parse := fun _ => none
    addMessageId := Except.ok "m1"
    actionChainFinal := Except.ok "final"
    genResponseReply := Except.ok "resp"
    addLeadId := Except.ok "lead1"
    sheetsWrite := Except.error "sheets down"
    updateMessage := Except.ok () }

/-- A two-item batch: one item that completes, one whose classification
call throws. -/
def demoBatch : List (MessageData × Oracles) :=
  [(mdWithId, oracleAllOk), (mdNoId, oracleFailClassify)]

/-- Three stored messages created in-window for one organization: two
completed, one failed. -/
def demoStatsDocs : List MsgDoc :=
  [ { organizationId := "org1", createdAt := 100, processingStatus := "completed"
      intent := some "booking", language := some "en", channelType := "whatsapp" }
  , { organizationId := "org1", createdAt := 150, processingStatus := "completed"
      intent := some "inquiry", language := some "bm", channelType := "whatsapp" }
  , { organizationId := "org1", createdAt := 200, processingStatus := "failed"
      intent := none, language := none, channelType := "email" } ]

end Dalco

namespace Dalco

/-! Helper lemmas shared by several claim theorems. -/

/-- Splitting a list length by a boolean predicate. -/
theorem length_filter_bool_split {α : Type} (p : α → Bool) (l : List α) :
    (l.filter p).length + (l.filter (fun a => !p a)).length = l.length := by
  induction l with
  | nil => rfl
  | cons a t ih =>
      cases hpa : p a <;> simp [List.filter_cons, hpa] <;> omega

/-- jsOr returns the default on a falsy value. -/
theorem jsOr_falsy (a : Option String) (d : String) (h : truthy a = false) :
    jsOr a d = d := by
  cases a with
  | none => rfl
  | some s =>
      simp only [truthy, Bool.not_eq_false'] at h
      simp [jsOr, h]

/-- jsOrNull returns none on a falsy value. -/
theorem jsOrNull_falsy (a : Option String) (h : truthy a = false) :
    jsOrNull a = none := by
  cases a with
  | none => rfl
  | some s =>
      simp only [truthy, Bool.not_eq_false'] at h
      simp [jsOrNull, h]

/-- Reading a count after a bump: the bumped key gains one, others are
unchanged. -/
theorem lookup0_bump (a : List (String × Nat)) (k0 k : String) :
    lookup0 (bump a k0) k = lookup0 a k + (if k0 == k then 1 else 0) := by
  induction a with
  | nil =>
      cases h : (k0 == k) <;> simp [bump, lookup0, h]
  | cons hd t ih =>
      obtain ⟨k1, n⟩ := hd
      by_cases h1 : k1 = k0
      · subst h1
        by_cases h2 : k1 = k <;> simp [bump, lookup0, h2]
      · have h1b : (k1 == k0) = false := by simp [h1]
        by_cases h2 : k1 = k
        · subst h2
          have h0 : (k0 == k1) = false := by
            simp [beq_iff_eq]
            exact fun hk => h1 hk.symm
          simp [bump, lookup0, h1b, h0]
        · have h2b : (k1 == k) = false := by simp [h2]
          simp [bump, lookup0, h1b, h2b, ih]

/-- The guarded bump fold computes guarded occurrence counts. -/
theorem lookup0_foldl_bump (g : MsgDoc → Bool) (f : MsgDoc → String)
    (msgs : List MsgDoc) (acc : List (String × Nat)) (k : String) :
    lookup0 (msgs.foldl (fun a m => if g m then bump a (f m) else a) acc) k
      = lookup0 acc k + (msgs.filter (fun m => g m && f m == k)).length := by
  induction msgs generalizing acc with
  | nil => simp
  | cons m t ih =>
      cases hg : g m
      · simp [List.foldl_cons, hg, ih, List.filter_cons]
      · cases hf : (f m == k)
        · simp [List.foldl_cons, hg, hf, ih, List.filter_cons, lookup0_bump]
        · simp [List.foldl_cons, hg, hf, ih, List.filter_cons, lookup0_bump]
          omega

/-- The unguarded bump fold computes occurrence counts. -/
theorem lookup0_foldl_bump_all (f : MsgDoc → String)
    (msgs : List MsgDoc) (acc : List (String × Nat)) (k : String) :
    lookup0 (msgs.foldl (fun a m => bump a (f m)) acc) k
      = lookup0 acc k + (msgs.filter (fun m => f m == k)).length := by
  induction msgs generalizing acc with
  | nil => simp
  | cons m t ih =>
      cases hf : (f m == k)
      · simp [List.foldl_cons, hf, ih, List.filter_cons, lookup0_bump]
      · simp [List.foldl_cons, hf, ih, List.filter_cons, lookup0_bump]
        omega

/-- Each grouped-count mapping of the combined forEach fold equals the
corresponding single-key fold; the total is untouched by the fold. -/
theorem foldl_tallyStep_proj (msgs : List MsgDoc) (st : Stats) :
    (msgs.foldl tallyStep st).total = st.total ∧
    (msgs.foldl tallyStep st).byStatus
      = msgs.foldl (fun a m => bump a m.processingStatus) st.byStatus ∧
    (msgs.foldl tallyStep st).byIntent
      = msgs.foldl (fun a m => if truthy m.intent then bump a (m.intent.getD "") else a)
          st.byIntent ∧
    (msgs.foldl tallyStep st).byLanguage
      = msgs.foldl (fun a m => if truthy m.language then bump a (m.language.getD "") else a)
          st.byLanguage ∧
    (msgs.foldl tallyStep st).byChannel
      = msgs.foldl (fun a m => bump a m.channelType) st.byChannel := by
  induction msgs generalizing st with
  | nil => exact ⟨rfl, rfl, rfl, rfl, rfl⟩
  | cons m t ih =>
      refine ⟨?_, ?_, ?_, ?_, ?_⟩ <;>
        simp only [List.foldl_cons] <;>
        first
        | exact ((ih (tallyStep st m)).1).trans rfl
        | exact ((ih (tallyStep st m)).2.1).trans rfl
        | exact ((ih (tallyStep st m)).2.2.1).trans rfl
        | exact ((ih (tallyStep st m)).2.2.2.1).trans rfl
        | exact ((ih (tallyStep st m)).2.2.2.2).trans rfl

/-- Filtering a mapped list counts the composed predicate. -/
theorem filter_of_map {α β : Type} (f : α → β) (p : β → Bool) (l : List α) :
    (l.map f).filter p = (l.filter (fun a => p (f a))).map f := by
  induction l with
  | nil => rfl
  | cons a t ih => cases h : p (f a) <;> simp [List.filter_cons, h, ih]

/-- Characterization of a run in which every collaborator call the control
flow reaches succeeds (the spreadsheet outcome is arbitrary: both branches
of its catch continue identically): the run returns the success payload and
attempts exactly the message add, the conditional lead add, and the
finalizing update. -/
theorem processMessage_run_ok (md : MessageData) (o : Oracles)
    (c x mid resp : String)
    (hc : o.classifyReply = Except.ok c) (hx : o.extractReply = Except.ok x)
    (hm : o.addMessageId = Except.ok mid)
    (hresp : (if (classifyIntent c).intent == "booking"
          || (classifyIntent c).intent == "inquiry"
        then o.actionChainFinal else o.genResponseReply) = Except.ok resp)
    (hu : o.updateMessage = Except.ok ()) :
    processMessage md o =
      (Except.ok
        { success := true
          messageId := mid
          language := (detectLanguage md.content).language
          intent := (classifyIntent c).intent
          entities := extractEntities o.parse x
          response := resp
          leadId := (if (classifyIntent c).intent == "booking"
                || (classifyIntent c).intent == "inquiry"
              then createLeadFromMessage o md.organizationId mid
                (extractEntities o.parse x) md.from_
              else (none, [])).1 },
       DbOp.addMessage mid (detectLanguage md.content).language
           (classifyIntent c).intent (extractEntities o.parse x) "processing"
         :: (if (classifyIntent c).intent == "booking"
                || (classifyIntent c).intent == "inquiry"
              then createLeadFromMessage o md.organizationId mid
                (extractEntities o.parse x) md.from_
              else (none, [])).2
         ++ [DbOp.updateMessage mid "completed" none]) := by
  simp only [processMessage, hc, hx, hm]
  rw [hresp]
  cases hsw : o.sheetsWrite <;> simp [hsw, hu]

/-! Claim theorems. -/

/-- C3: for every entity record, calculateLeadScore returns exactly 50 plus
10 when name is present, 15 for phone, 15 for email, 10 for date, 10 for
time and 10 for service type, capped at 100; consequently the result always
lies between 50 and 100, and missing (falsy) fields contribute 0. -/
theorem calculateLeadScore_spec (entities : Entities) :
    calculateLeadScore entities =
      min (50 + (if truthy entities.name then 10 else 0)
        + (if truthy entities.phone then 15 else 0)
        + (if truthy entities.email then 15 else 0)
        + (if truthy entities.date then 10 else 0)
        + (if truthy entities.time then 10 else 0)
        + (if truthy entities.service_type then 10 else 0)) 100
    ∧ 50 ≤ calculateLeadScore entities ∧ calculateLeadScore entities ≤ 100 := by
  simp only [calculateLeadScore]
  cases truthy entities.name <;> cases truthy entities.phone <;>
    cases truthy entities.email <;> cases truthy entities.date <;>
    cases truthy entities.time <;> cases truthy entities.service_type <;>
    exact ⟨by decide, by decide, by decide⟩

/-- C3 witness: the bound instantiated at the raw-fallback record, whose
score is between 50 and 100. -/
theorem calculateLeadScore_spec_witness :
    50 ≤ calculateLeadScore (Entities.raw "r")
      ∧ calculateLeadScore (Entities.raw "r") ≤ 100 :=
  ⟨(calculateLeadScore_spec (Entities.raw "r")).2.1,
   (calculateLeadScore_spec (Entities.raw "r")).2.2⟩

/-- C4: detectLanguage is a total pure function of its input; it returns
language bm with confidence 0.8 exactly when at least 2 of the fixed
Bahasa-Malaysia marker words occur as case-insensitive substrings of the
input, and otherwise returns en with confidence 0.6. -/
theorem detectLanguage_spec (text : String) :
    detectLanguage text =
      (if 2 ≤ bmCountOf text then { language := "bm", confidence := 0.8 }
       else { language := "en", confidence := 0.6 }) ∧
    ((detectLanguage text).language = "bm" ∧ (detectLanguage text).confidence = 0.8
      ↔ 2 ≤ bmCountOf text) := by
  simp only [detectLanguage, bmCountOf, ge_iff_le]
  by_cases h : 2 ≤ (bmKeywords.filter (fun w => strIncludes (lowerStr text) w)).length
  · simp [h]
  · simp [h]

/-- C4 witness: a text containing the marker words saya and nak is
classified bm with confidence 0.8. -/
theorem detectLanguage_spec_witness :
    (detectLanguage "Saya nak buat appointment Jumaat 2pm").language = "bm" ∧
    (detectLanguage "Saya nak buat appointment Jumaat 2pm").confidence = 0.8 :=
  (detectLanguage_spec "Saya nak buat appointment Jumaat 2pm").2.mpr (by decide)

/-- C5: classifyIntent lower-cases and trims the reply of the generation
service, coerces any normalized reply outside the fixed label set booking,
inquiry, complaint, feedback, general to general, and always attaches the
fixed confidence 0.85 regardless of the reply. -/
theorem classifyIntent_spec (reply : String) :
    (classifyIntent reply).confidence = 0.85 ∧
    (classifyIntent reply).rawResponse = reply ∧
    (trimStr (lowerStr reply) ∈ validIntents →
      (classifyIntent reply).intent = trimStr (lowerStr reply)) ∧
    (trimStr (lowerStr reply) ∉ validIntents →
      (classifyIntent reply).intent = "general") := by
  refine ⟨rfl, rfl, ?_, ?_⟩ <;> intro h <;>
    simp [classifyIntent, List.contains, List.elem_iff, h]

/-- C5 witness: the reply BOOK NOW normalizes outside the label set and is
coerced to general with confidence 0.85. -/
theorem classifyIntent_spec_witness :
    (classifyIntent "BOOK NOW").confidence = 0.85 ∧
    (classifyIntent "BOOK NOW").intent = "general" :=
  ⟨(classifyIntent_spec "BOOK NOW").1,
   (classifyIntent_spec "BOOK NOW").2.2.2 (by decide)⟩

/-- C2 counterexample: the reply hello is not valid JSON-shaped data yet
contains no brace-delimited substring, so the regex does not match, the
parse fallback is never reached, and extractEntities returns the initial
empty object rather than the raw-fallback record claimed. -/
theorem extractEntities_counterexample :
    extractEntities (fun _ => none) "hello" = Entities.obj {} ∧
    extractEntities (fun _ => none) "hello" ≠ Entities.raw "hello" :=
  ⟨rfl, by decide⟩

/-- C2 amended: extractEntities never throws; when the reply contains a
brace-delimited substring whose parse fails, the result is the
raw-fallback record holding the full reply; when the parse succeeds the
result is the parsed object; and when the reply contains no
brace-delimited substring the result is the empty object (not the
raw-fallback record). -/
theorem extractEntities_spec (parse : String → Option EntObj) (reply : String) :
    (jsMatch reply = none → extractEntities parse reply = Entities.obj {}) ∧
    (∀ sub, jsMatch reply = some sub → parse sub = none →
      extractEntities parse reply = Entities.raw reply) ∧
    (∀ sub e, jsMatch reply = some sub → parse sub = some e →
      extractEntities parse reply = Entities.obj e) := by
  refine ⟨?_, ?_, ?_⟩
  · intro h; simp [extractEntities, h]
  · intro sub h hp; simp [extractEntities, h, hp]
  · intro sub e h hp; simp [extractEntities, h, hp]

/-- C2 witness: a reply whose brace-delimited substring fails to parse
yields the raw-fallback record holding the full reply. -/
theorem extractEntities_spec_witness :
    extractEntities (fun _ => none) "x\x7bbad\x7dy" = Entities.raw "x\x7bbad\x7dy" :=
  (extractEntities_spec (fun _ => none) "x\x7bbad\x7dy").2.1 "\x7bbad\x7d" (by decide) rfl

/-- C1 counterexample: a message without an external messageId whose intent
classification throws.  The exception is re-raised, but no document-store
write is attempted at all, so the Message is not marked failed, refuting
the claim that processMessage always marks the Message failed before
re-raising. -/
theorem processMessage_failMark_counterexample :
    (processMessage mdNoId oracleFailClassify).1 = Except.error "AI down" ∧
    (processMessage mdNoId oracleFailClassify).2 = [] :=
  ⟨rfl, rfl⟩

/-- C1 amended: when intent classification or entity extraction throws,
processMessage re-raises the exception, and the failure marking is only
attempted when the inbound payload carries an external messageId, in which
case the attempted write targets the messages document with that external
id, setting processingStatus failed with the error message attached; with
no external messageId present, no marking is attempted. -/
theorem processMessage_failureSemantics (md : MessageData) (o : Oracles) (e : String)
    (h : o.classifyReply = Except.error e ∨
      ((∃ r, o.classifyReply = Except.ok r) ∧ o.extractReply = Except.error e)) :
    (processMessage md o).1 = Except.error e ∧
    (processMessage md o).2 = failOps md e ∧
    (∀ m, md.messageId = some m →
      (processMessage md o).2 = [DbOp.updateMessage m "failed" (some e)]) ∧
    (md.messageId = none → (processMessage md o).2 = []) := by
  have hops : (processMessage md o).1 = Except.error e ∧
      (processMessage md o).2 = failOps md e := by
    rcases h with h1 | ⟨⟨r, hr⟩, he⟩
    · simp [processMessage, h1]
    · simp [processMessage, hr, he]
  refine ⟨hops.1, hops.2, ?_, ?_⟩
  · intro m hm; rw [hops.2]; simp [failOps, hm]
  · intro hm; rw [hops.2]; simp [failOps, hm]

/-- C1 witness: a message carrying the external messageId ext1 whose entity
extraction throws boom is re-raised, and the single attempted write marks
the document ext1 failed with the error attached. -/
theorem processMessage_failureSemantics_witness :
    (processMessage mdWithId oracleFailExtract).1 = Except.error "boom" ∧
    (processMessage mdWithId oracleFailExtract).2
      = [DbOp.updateMessage "ext1" "failed" (some "boom")] :=
  ⟨(processMessage_failureSemantics mdWithId oracleFailExtract "boom"
      (Or.inr ⟨⟨"booking", rfl⟩, rfl⟩)).1,
   (processMessage_failureSemantics mdWithId oracleFailExtract "boom"
      (Or.inr ⟨⟨"booking", rfl⟩, rfl⟩)).2.2.1 "ext1" rfl⟩

/-- C6: when the spreadsheet export throws while every other collaborator
call of the run succeeds, the error is contained: the run still finalizes
the message as completed and returns the success payload with the created
document id. -/
theorem processMessage_sheetsContained (md : MessageData) (o : Oracles)
    (c x mid a g se : String)
    (hc : o.classifyReply = Except.ok c) (hx : o.extractReply = Except.ok x)
    (hm : o.addMessageId = Except.ok mid) (ha : o.actionChainFinal = Except.ok a)
    (hg : o.genResponseReply = Except.ok g) (_hs : o.sheetsWrite = Except.error se)
    (hu : o.updateMessage = Except.ok ()) :
    ∃ res, (processMessage md o).1 = Except.ok res ∧ res.success = true ∧
      res.messageId = mid ∧
      DbOp.updateMessage mid "completed" none ∈ (processMessage md o).2 := by
  have hresp : (if (classifyIntent c).intent == "booking"
        || (classifyIntent c).intent == "inquiry"
      then o.actionChainFinal else o.genResponseReply)
      = Except.ok (if (classifyIntent c).intent == "booking"
        || (classifyIntent c).intent == "inquiry" then a else g) := by
    by_cases hb : ((classifyIntent c).intent == "booking"
        || (classifyIntent c).intent == "inquiry") = true
    · simp [hb, ha]
    · simp [hb, hg]
  have hrun := processMessage_run_ok md o c x mid _ hc hx hm hresp hu
  exact ⟨_, by rw [hrun], rfl, rfl, by rw [hrun]; simp⟩

/-- C6 witness: with only the spreadsheet export throwing, the concrete run
succeeds, reports the created document id m1, and finalizes it
completed. -/
theorem processMessage_sheetsContained_witness :
    ∃ res, (processMessage mdWithId oracleFailSheets).1 = Except.ok res ∧
      res.success = true ∧ res.messageId = "m1" ∧
      DbOp.updateMessage "m1" "completed" none
        ∈ (processMessage mdWithId oracleFailSheets).2 :=
  processMessage_sheetsContained mdWithId oracleFailSheets "booking" "no json here"
    "m1" "final" "resp" "sheets down" rfl rfl rfl rfl rfl rfl rfl

/-- C7: batchProcessMessages processes the input strictly one at a time in
input order (the result list is the in-order image of the per-item runner,
one entry per input item), a single item's failure does not abort the
batch, and the summary reports total equal to the input length, processed
equal to the number of per-item successes and failed equal to the number of
per-item failures. -/
theorem batchProcessMessages_spec (items : List (MessageData × Oracles)) :
    (batchProcessMessages items).success = true ∧
    (batchProcessMessages items).total = items.length ∧
    (batchProcessMessages items).results.length = items.length ∧
    (batchProcessMessages items).results = items.map runBatchItem ∧
    (batchProcessMessages items).processed
      = (items.filter (fun it => (runBatchItem it).success)).length ∧
    (batchProcessMessages items).failed
      = (items.filter (fun it => !(runBatchItem it).success)).length ∧
    (batchProcessMessages items).processed + (batchProcessMessages items).failed
      = (batchProcessMessages items).total ∧
    ∀ i : Nat, (batchProcessMessages items).results[i]?
      = items[i]?.map runBatchItem := by
  refine ⟨rfl, rfl, by simp [batchProcessMessages], rfl, ?_, ?_, ?_, ?_⟩
  · simp [batchProcessMessages, filter_of_map]
  · simp [batchProcessMessages, filter_of_map]
  · have hsplit := length_filter_bool_split (fun r : BatchItem => r.success)
      (items.map runBatchItem)
    simpa [batchProcessMessages] using hsplit
  · intro i
    simp [batchProcessMessages, List.getElem?_map]

/-- C7 witness: over the concrete two-item batch with one failing item, the
summary reports a total of 2 and the second result entry is the in-order
per-item outcome. -/
theorem batchProcessMessages_spec_witness :
    (batchProcessMessages demoBatch).total = 2 ∧
    (batchProcessMessages demoBatch).results[1]? = demoBatch[1]?.map runBatchItem :=
  ⟨((batchProcessMessages_spec demoBatch).2.1).trans rfl,
   (batchProcessMessages_spec demoBatch).2.2.2.2.2.2.2 1⟩

/-- C8: the period keyword maps to the start timestamp as documented (today
to midnight today, week to now minus 7 days, month to now minus 1 calendar
month, anything else defaulting to now minus 7 days), and over the in-range
messages the stats report a total equal to the number of messages together
with grouped counts by status, intent, language and channel; in particular
3 in-range messages of which 2 are completed and 1 failed yield a
completed-count of 2, a failed-count of 1 and total 3. -/
theorem getProcessingStats_spec :
    periodStartDate "today" = StartDate.midnightToday ∧
    periodStartDate "week" = StartDate.nowMinusDays 7 ∧
    periodStartDate "month" = StartDate.nowMinusMonths 1 ∧
    (∀ p, p ∉ (["today", "week", "month"] : List String) →
      periodStartDate p = StartDate.nowMinusDays 7) ∧
    (∀ org start docs,
      (getProcessingStats org start docs).total = (inRange org start docs).length ∧
      (∀ s, lookup0 (getProcessingStats org start docs).byStatus s
        = ((inRange org start docs).filter (fun m => m.processingStatus == s)).length) ∧
      (∀ s, lookup0 (getProcessingStats org start docs).byIntent s
        = ((inRange org start docs).filter
            (fun m => truthy m.intent && m.intent.getD "" == s)).length) ∧
      (∀ s, lookup0 (getProcessingStats org start docs).byLanguage s
        = ((inRange org start docs).filter
            (fun m => truthy m.language && m.language.getD "" == s)).length) ∧
      (∀ s, lookup0 (getProcessingStats org start docs).byChannel s
        = ((inRange org start docs).filter (fun m => m.channelType == s)).length)) ∧
    ((getProcessingStats "org1" 0 demoStatsDocs).total = 3 ∧
      lookup0 (getProcessingStats "org1" 0 demoStatsDocs).byStatus "completed" = 2 ∧
      lookup0 (getProcessingStats "org1" 0 demoStatsDocs).byStatus "failed" = 1) := by
  refine ⟨rfl, rfl, rfl, ?_, ?_, by decide, by decide, by decide⟩
  · intro p hp
    simp only [List.mem_cons, List.not_mem_nil, or_false, not_or] at hp
    unfold periodStartDate
    split
    · exact absurd rfl hp.1
    · exact absurd rfl hp.2.1
    · exact absurd rfl hp.2.2
    · rfl
  · intro org start docs
    have hp := foldl_tallyStep_proj (inRange org start docs)
      { total := (inRange org start docs).length
        byStatus := []
        byIntent := []
        byLanguage := []
        byChannel := []
        averageProcessingTime := 0 }
    refine ⟨?_, ?_, ?_, ?_, ?_⟩
    · simpa only [getProcessingStats] using hp.1
    · intro s
      have hb := lookup0_foldl_bump_all (fun m => m.processingStatus)
        (inRange org start docs) [] s
      simp only [getProcessingStats, hp.2.1, lookup0] at *
      simpa using hb
    · intro s
      have hb := lookup0_foldl_bump (fun m => truthy m.intent)
        (fun m => m.intent.getD "") (inRange org start docs) [] s
      simp only [getProcessingStats, hp.2.2.1, lookup0] at *
      simpa using hb
    · intro s
      have hb := lookup0_foldl_bump (fun m => truthy m.language)
        (fun m => m.language.getD "") (inRange org start docs) [] s
      simp only [getProcessingStats, hp.2.2.2.1, lookup0] at *
      simpa using hb
    · intro s
      have hb := lookup0_foldl_bump_all (fun m => m.channelType)
        (inRange org start docs) [] s
      simp only [getProcessingStats, hp.2.2.2.2, lookup0] at *
      simpa using hb

/-- C8 witness: an unrecognized period keyword falls back to the default
start timestamp, now minus 7 days. -/
theorem getProcessingStats_spec_witness :
    periodStartDate "yesterday" = StartDate.nowMinusDays 7 ∧
    (getProcessingStats "org1" 0 demoStatsDocs).total = 3 :=
  ⟨getProcessingStats_spec.2.2.2.1 "yesterday" (by decide),
   getProcessingStats_spec.2.2.2.2.2.1⟩

/-- C9 counterexample: a complete successful run of the pipeline on a
concrete message: the created messages document m1 receives exactly one
mutation (the finalizing update), not the two mutations claimed; the
intermediate derived fields are part of the creation write, not of a
separate mutation. -/
theorem processMessage_mutationCount_counterexample :
    (∃ res, (processMessage mdWithId oracleAllOk).1 = Except.ok res) ∧
    ((processMessage mdWithId oracleAllOk).2.filter (isUpdateOf "m1")).length = 1 ∧
    ¬ (((processMessage mdWithId oracleAllOk).2.filter (isUpdateOf "m1")).length = 2) := by
  exact ⟨⟨_, rfl⟩, by decide, by decide⟩

/-- C9 amended: over a completed run, the message document is created
exactly once — already carrying the derived language, intent and entity
fields with status processing — then mutated exactly once by the finalizing
update to status completed, and never deleted by the pipeline. -/
theorem processMessage_docLifecycle (md : MessageData) (o : Oracles)
    (c x mid resp : String)
    (hc : o.classifyReply = Except.ok c) (hx : o.extractReply = Except.ok x)
    (hm : o.addMessageId = Except.ok mid)
    (hresp : (if (classifyIntent c).intent == "booking"
          || (classifyIntent c).intent == "inquiry"
        then o.actionChainFinal else o.genResponseReply) = Except.ok resp)
    (hu : o.updateMessage = Except.ok ()) :
    ∃ res, (processMessage md o).1 = Except.ok res ∧ res.messageId = mid ∧
      ((processMessage md o).2.filter (isAddOf mid)).length = 1 ∧
      ((processMessage md o).2.filter (isUpdateOf mid)).length = 1 ∧
      (processMessage md o).2.filter isDeleteOp = [] ∧
      DbOp.addMessage mid (detectLanguage md.content).language
        (classifyIntent c).intent (extractEntities o.parse x) "processing"
        ∈ (processMessage md o).2 ∧
      DbOp.updateMessage mid "completed" none ∈ (processMessage md o).2 := by
  have hrun := processMessage_run_ok md o c x mid resp hc hx hm hresp hu
  refine ⟨_, by rw [hrun], rfl, ?_, ?_, ?_, ?_, ?_⟩ <;>
    rw [hrun] <;>
    by_cases hb : ((classifyIntent c).intent == "booking"
        || (classifyIntent c).intent == "inquiry") = true <;>
    rcases hl : o.addLeadId with le | lid <;>
    simp [hb, hl, createLeadFromMessage, isAddOf, isUpdateOf, isDeleteOp,
      List.filter_append, List.filter_cons]

/-- C9 witness: the concrete completed run creates m1 once with the derived
fields and mutates it exactly once. -/
theorem processMessage_docLifecycle_witness :
    ∃ res, (processMessage mdWithId oracleAllOk).1 = Except.ok res ∧
      res.messageId = "m1" ∧
      ((processMessage mdWithId oracleAllOk).2.filter (isAddOf "m1")).length = 1 ∧
      ((processMessage mdWithId oracleAllOk).2.filter (isUpdateOf "m1")).length = 1 ∧
      (processMessage mdWithId oracleAllOk).2.filter isDeleteOp = [] ∧
      DbOp.addMessage "m1" (detectLanguage mdWithId.content).language
        (classifyIntent "booking").intent
        (extractEntities oracleAllOk.parse "no json here") "processing"
        ∈ (processMessage mdWithId oracleAllOk).2 ∧
      DbOp.updateMessage "m1" "completed" none
        ∈ (processMessage mdWithId oracleAllOk).2 :=
  processMessage_docLifecycle mdWithId oracleAllOk "booking" "no json here" "m1"
    "final" rfl rfl rfl rfl rfl

/-- C10: over any entity record in which none of the six scored fields is
present — in particular over the raw-text fallback record — the lead
document built and written by createLeadFromMessage has score exactly 50,
status new, customerName Unknown, and phone equal to the sender
address. -/
theorem createLeadFromMessage_empty (o : Oracles) (org mid sender : String)
    (entities : Entities)
    (h1 : truthy entities.name = false) (h2 : truthy entities.phone = false)
    (h3 : truthy entities.email = false) (h4 : truthy entities.date = false)
    (h5 : truthy entities.time = false) (h6 : truthy entities.service_type = false) :
    (∃ lid, (createLeadFromMessage o org mid entities sender).2
      = [DbOp.addLead lid (mkLeadData org mid entities sender)]) ∧
    (mkLeadData org mid entities sender).score = 50 ∧
    (mkLeadData org mid entities sender).status = "new" ∧
    (mkLeadData org mid entities sender).customerName = "Unknown" ∧
    (mkLeadData org mid entities sender).phone = sender := by
  refine ⟨?_, ?_, rfl, ?_, ?_⟩
  · rcases hl : o.addLeadId with le | lid
    · exact ⟨none, by simp [createLeadFromMessage, hl]⟩
    · exact ⟨some lid, by simp [createLeadFromMessage, hl]⟩
  · simp [mkLeadData, calculateLeadScore, h1, h2, h3, h4, h5, h6]
  · simp [mkLeadData, jsOr_falsy entities.name "Unknown" h1]
  · simp [mkLeadData, jsOr_falsy entities.phone sender h2]

/-- C10 witness: the raw-text fallback record yields a lead with score 50,
status new, customerName Unknown and the sender's phone. -/
theorem createLeadFromMessage_empty_witness :
    (mkLeadData "org1" "m1" (Entities.raw "free text") "+60123").score = 50 ∧
    (mkLeadData "org1" "m1" (Entities.raw "free text") "+60123").status = "new" ∧
    (mkLeadData "org1" "m1" (Entities.raw "free text") "+60123").customerName
      = "Unknown" ∧
    (mkLeadData "org1" "m1" (Entities.raw "free text") "+60123").phone = "+60123" :=
  (createLeadFromMessage_empty oracleAllOk "org1" "m1" "+60123"
    (Entities.raw "free text") rfl rfl rfl rfl rfl rfl).2

end Dalco
